import Mathlib

/-!
Verification of the PAM controller core (hardware/pam.py, ble/command_processor.py,
state.py) against its natural-language specification.

The Python source is shallowly embedded:
* the serial link is a pure oracle `Device : List String → String` mapping the
  history of command lines written so far (current command last) to the decoded
  text the controller reads back for that command;
* every PAM operation threads a `PamState` carrying the trace of command lines
  written (`sent`) and the `_verify_writes` instance attribute;
* Python floats arising from `extract_number` are modelled as exact rationals
  (every value the protocol produces is a short decimal, exactly representable);
* Python `None` becomes `Option.none`; a caught exception that makes a method
  return `False` is modelled by the corresponding `(false, _)` result.
-/

/-! ### Python-level string and number helpers (pam.py response parsers) -/

/-- Remove every occurrence of a character: models `resp.replace(">", "")`
for the single-character pattern used in `extract_number`. -/
def stripChar (c : Char) (s : List Char) : List Char :=
  s.filter (fun d => d ≠ c)

/-- Split on runs of whitespace, discarding empty pieces: models Python
`str.split()` with no argument. `acc` holds the current token reversed. -/
def splitWsAux : List Char → List Char → List (List Char)
  | [], acc => if acc = [] then [] else [acc.reverse]
  | c :: rest, acc =>
    if c.isWhitespace then
      if acc = [] then splitWsAux rest []
      else acc.reverse :: splitWsAux rest []
    else splitWsAux rest (c :: acc)

def splitWs (s : List Char) : List (List Char) := splitWsAux s []

/-- Numeric value of a digit string, most significant first. -/
def digitsVal (cs : List Char) : Nat :=
  cs.foldl (fun acc c => acc * 10 + (c.toNat - 48)) 0

/-- Python `float(token)` on the plain decimal literals the PAM protocol
produces: optional sign, integer digits, optional `.` and fraction digits.
(The full `float` grammar also has exponents, `inf`/`nan` and underscores;
none of those occur in PAM responses, and a token using them would simply
parse here as `none`, i.e. be skipped, which never happens on this device.)
The value is returned as an exact rational. -/
def pyFloat? (t : List Char) : Option Rat :=
  let signed : Bool × List Char :=
    match t with
    | '-' :: rest => (true, rest)
    | '+' :: rest => (false, rest)
    | _ => (false, t)
  let neg := signed.1
  let cs := signed.2
  let intPart := cs.takeWhile Char.isDigit
  let rest := cs.dropWhile Char.isDigit
  match rest with
  | [] =>
    if intPart = [] then none
    else
      let m : Int := (digitsVal intPart : Int)
      some (mkRat (if neg then -m else m) 1)
  | '.' :: frac =>
    if frac.all Char.isDigit ∧ (intPart ≠ [] ∨ frac ≠ []) then
      let m : Int := (digitsVal intPart * 10 ^ frac.length + digitsVal frac : Nat)
      some (mkRat (if neg then -m else m) (10 ^ frac.length))
    else none
  | _ => none

/-- pam.py `extract_number(resp)`: drop `>`, split on whitespace, return the
first token `float()` accepts, else `None`. -/
def extract_number (resp : String) : Option Rat :=
  (splitWs (stripChar '>' resp.data)).foldr
    (fun tok found => match pyFloat? tok with
      | some q => some q
      | none => found)
    none

/-- pam.py `extract_mode(resp)`: `"V" in resp` / `"C" in resp` (single-character
containment). -/
def extract_mode (resp : String) : Option String :=
  if resp.data.contains 'V' then some "V"
  else if resp.data.contains 'C' then some "C"
  else none

/-- Python `int()` applied to a float value (here an exact rational):
truncation toward zero. -/
def pyInt (q : Rat) : Int := Int.tdiv q.num (q.den : Int)

/-! ### Serial transport model -/

/-- Behaviour of the PAM hardware on the serial link: the decoded text read
back for a command, as a function of the whole history of command lines
written so far (the command being answered is the last element). -/
def Device : Type := List String → String

/-- State of one `PAMController` instance: the trace of command lines written
to the serial port, and the `_verify_writes` instance attribute, which is
`none` until the `verify_writes` setter has run (a fresh instance has no such
attribute — reading it raises `AttributeError`). -/
structure PamState where
  sent : List String
  verifyWrites : Option Bool
  deriving DecidableEq, Repr

/-- A freshly constructed `PAMController`: nothing written, `_verify_writes`
never assigned. -/
def initPam : PamState := { sent := [], verifyWrites := none }

/-- pam.py `cmd(command)`: clear the input buffer, write `command + CRLF`,
read until `>` or timeout, return the decoded text. The write is recorded in
the trace; the response comes from the device oracle. -/
def cmd (dev : Device) (ps : PamState) (command : String) : String × PamState :=
  let sent' := ps.sent ++ [command]
  (dev sent', { ps with sent := sent' })

/-! ### PAM read/write operations (pam.py) -/

/-- pam.py `read_function`. -/
def read_function (dev : Device) (ps : PamState) : Option Rat × PamState :=
  let r := cmd dev ps "FUNCTION"
  (extract_number r.1, r.2)

/-- pam.py `read_status_value` (hidden command `RX1:READYA`). -/
def read_status_value (dev : Device) (ps : PamState) : Option Rat × PamState :=
  let r := cmd dev ps "RX1:READYA"
  (extract_number r.1, r.2)

/-- pam.py `read_remote_control_status` (hidden command `RC:S`). -/
def read_remote_control_status (dev : Device) (ps : PamState) :
    Option Rat × PamState :=
  let r := cmd dev ps "RC:S"
  (extract_number r.1, r.2)

/-- Python `channel.upper()` restricted to the strings that reach it. -/
def pyUpper (s : String) : String := ⟨s.data.map Char.toUpper⟩

/-- pam.py `read_ain_mode(channel)`. -/
def read_ain_mode (dev : Device) (ps : PamState) (channel : String) :
    Option String × PamState :=
  let c := if pyUpper channel = "A" then "AINA" else "AINB"
  let r := cmd dev ps c
  (extract_mode r.1, r.2)

/-- pam.py `write_ain_mode(mode, channel)` (always returns `True`). -/
def write_ain_mode (dev : Device) (ps : PamState) (mode channel : String) :
    PamState :=
  (cmd dev ps (if pyUpper channel = "A" then "AINA " ++ mode else "AINB " ++ mode)).2

/-- pam.py `write_function_mode(mode)` (always returns `True`). -/
def write_function_mode (dev : Device) (ps : PamState) (mode : Int) : PamState :=
  (cmd dev ps ("FUNCTION " ++ toString mode)).2

/-- pam.py `write_current(value)` / mode-195 current command. -/
def write_current (dev : Device) (ps : PamState) (value : Int) : PamState :=
  (cmd dev ps ("CURRENT " ++ toString value)).2

/-- pam.py `write_current_a(value)`. -/
def write_current_a (dev : Device) (ps : PamState) (value : Int) : PamState :=
  (cmd dev ps ("CURRENT:A " ++ toString value)).2

/-- pam.py `write_current_b(value)`. -/
def write_current_b (dev : Device) (ps : PamState) (value : Int) : PamState :=
  (cmd dev ps ("CURRENT:B " ++ toString value)).2

/-- pam.py `save_pam_settings()` (always returns `True`). -/
def save_pam_settings (dev : Device) (ps : PamState) : PamState :=
  (cmd dev ps "SAVE").2

/-- pam.py `get_current_status` (mode-195 readback, command `CURRENT`). -/
def get_current_status (dev : Device) (ps : PamState) : Option Rat × PamState :=
  let r := cmd dev ps "CURRENT"
  (extract_number r.1, r.2)

/-- pam.py `get_current_a_status` (command `CURRENT:A`). -/
def get_current_a_status (dev : Device) (ps : PamState) : Option Rat × PamState :=
  let r := cmd dev ps "CURRENT:A"
  (extract_number r.1, r.2)

/-- pam.py `get_current_b_status` (command `CURRENT:B`). -/
def get_current_b_status (dev : Device) (ps : PamState) : Option Rat × PamState :=
  let r := cmd dev ps "CURRENT:B"
  (extract_number r.1, r.2)

/-- pam.py `get_pin_15_status`: read `RC:S`, default to `False` when the read
fails, else test bit 6 (`val & 64 > 0`). For an integer `val` the Python
bitwise test `val & 64 > 0` is exactly `64 ≤ val mod 128` (bit 6 of the
two's-complement value). -/
def get_pin_15_status (dev : Device) (ps : PamState) : Bool × PamState :=
  let r := read_remote_control_status dev ps
  match r.1 with
  | none => (false, r.2)
  | some q => (decide (64 ≤ Int.emod (pyInt q) 128), r.2)

/-! ### change_pam_function (pam.py lines 308-339) -/

/-- The exact sequence of command lines `change_pam_function(new_mode)` writes
to the serial port for a valid mode. -/
def cpfTrace (new_mode : Int) : List String :=
  ["FUNCTION " ++ toString new_mode, "IA 0", "IB 0", "SAVE", "FUNCTION"]

/-- pam.py `change_pam_function(new_mode)`: reject modes outside {195, 196};
otherwise flush, write `FUNCTION <new_mode>`, zero both channel setpoints,
`SAVE`, wait 3 s (time is not modelled), flush, read `FUNCTION` back once and
compare the parsed number with `float(new_mode)`. There is no PIN15 poll and
no retry loop in the source. -/
def change_pam_function (dev : Device) (ps : PamState) (new_mode : Int) :
    Bool × PamState :=
  if new_mode ≠ 195 ∧ new_mode ≠ 196 then (false, ps)
  else
    let ps1 := write_function_mode dev ps new_mode
    let ps2 := (cmd dev ps1 "IA 0").2
    let ps3 := (cmd dev ps2 "IB 0").2
    let ps4 := save_pam_settings dev ps3
    let r := read_function dev ps4
    (decide (r.1 = some ((new_mode : Int) : Rat)), r.2)

/-- Closed form of a `change_pam_function` run on a valid mode: the result is
the single FUNCTION readback comparison and the trace grows by exactly
`cpfTrace new_mode`. -/
theorem change_pam_function_run (dev : Device) (ps : PamState) (n : Int)
    (h : n = 195 ∨ n = 196) :
    change_pam_function dev ps n =
      (decide (extract_number (dev (ps.sent ++ cpfTrace n)) = some ((n : Int) : Rat)),
       { ps with sent := ps.sent ++ cpfTrace n }) := by
  have hne : ¬(n ≠ 195 ∧ n ≠ 196) := by
    rcases h with h | h <;> simp [h]
  simp only [change_pam_function, if_neg hne, write_function_mode,
    save_pam_settings, read_function, cmd, cpfTrace]
  simp [List.append_assoc]

/-! ### Claim C1: the PIN15 safety gate -/

/-- Device on which PIN15 always reads energized (every `RC:S` poll answers 68,
which has bit 6 set) and on which the FUNCTION readback confirms the requested
mode. -/
def devPin15On : Device := fun h =>
  match h.getLast? with
  | some "RC:S" => "68>"
  | some "FUNCTION" => "196>"
  | _ => ">"

/-- Claim C1 is false of the code: on a device where PIN15 reads energized on
every poll (so on all 3 polls of the claimed safety gate),
`change_pam_function(196)` still writes the `FUNCTION 196` command line and
returns success — there is no SafetyStop abort. -/
theorem change_pam_function_pin15_counterexample :
    (get_pin_15_status devPin15On initPam).1 = true ∧
    (get_pin_15_status devPin15On (get_pin_15_status devPin15On initPam).2).1 = true ∧
    (get_pin_15_status devPin15On
        (get_pin_15_status devPin15On (get_pin_15_status devPin15On initPam).2).2).1 = true ∧
    "FUNCTION 196" ∈ (change_pam_function devPin15On initPam 196).2.sent ∧
    (change_pam_function devPin15On initPam 196).1 = true := by
  decide

/-- Amended claim C1: `change_pam_function` performs no PIN15 safety gate at
all. For every valid `new_mode` and every device behaviour — including one
where PIN15 is energized throughout — it writes exactly
`FUNCTION <new_mode>`, `IA 0`, `IB 0`, `SAVE`, `FUNCTION`, so the FUNCTION
command is always issued and `RC:S` (the PIN15 poll) is never sent by it. -/
theorem change_pam_function_no_safety_gate (dev : Device) (ps : PamState) (n : Int)
    (h : n = 195 ∨ n = 196) :
    (change_pam_function dev ps n).2.sent = ps.sent ++ cpfTrace n ∧
    ("FUNCTION " ++ toString n) ∈ (change_pam_function dev ps n).2.sent ∧
    "RC:S" ∉ List.drop ps.sent.length (change_pam_function dev ps n).2.sent := by
  have hrun := change_pam_function_run dev ps n h
  refine ⟨by rw [hrun], ?_, ?_⟩
  · rw [hrun]
    exact List.mem_append_right _ (List.mem_cons_self _ _)
  · rw [hrun]
    rcases h with h | h <;> subst h <;> simp only [List.drop_left] <;> decide

theorem change_pam_function_no_safety_gate_witness :
    (change_pam_function (fun _ => "196>") initPam 196).2.sent = initPam.sent ++ cpfTrace 196 ∧
    ("FUNCTION " ++ toString (196 : Int)) ∈
      (change_pam_function (fun _ => "196>") initPam 196).2.sent ∧
    "RC:S" ∉ List.drop initPam.sent.length
      (change_pam_function (fun _ => "196>") initPam 196).2.sent :=
  change_pam_function_no_safety_gate (fun _ => "196>") initPam 196 (Or.inr rfl)

/-! ### Claim C2: the verification retry loop -/

/-- Modelled from the spec: the §4.2 step-6 verification loop that the spec
(and claim C2) attribute to `change_pam_function` — up to 10 attempts, each
clearing the buffer and reading FUNCTION back, succeeding when the parsed
number equals `new_mode`, re-issuing `SAVE` once after the 4th failed
attempt, failing permanently when all attempts are exhausted. No such loop
exists in pam.py; it is stated here from the spec's words for comparison with
the code. `fuel` counts remaining attempts, `attempt` is the 1-based attempt
number. -/
def verify_attempts_spec (dev : Device) (new_mode : Int) :
    Nat → Nat → PamState → Bool × PamState
  | 0, _, ps => (false, ps)
  | fuel + 1, attempt, ps =>
    let r := read_function dev ps
    if r.1 = some ((new_mode : Int) : Rat) then (true, r.2)
    else
      let ps' := if attempt = 4 then save_pam_settings dev r.2 else r.2
      verify_attempts_spec dev new_mode fuel (attempt + 1) ps'

/-- Modelled from the spec: `change_pam_function` as claim C2 describes it —
the code's write prefix followed by the 10-attempt verification loop with the
SAVE kick. -/
def change_pam_function_spec (dev : Device) (ps : PamState) (new_mode : Int) :
    Bool × PamState :=
  if new_mode ≠ 195 ∧ new_mode ≠ 196 then (false, ps)
  else
    let ps1 := write_function_mode dev ps new_mode
    let ps2 := (cmd dev ps1 "IA 0").2
    let ps3 := (cmd dev ps2 "IB 0").2
    let ps4 := save_pam_settings dev ps3
    verify_attempts_spec dev new_mode 10 1 ps4

/-- Device whose FUNCTION readback is garbage on the first verification
attempt (the 5th command overall) and correct from the next attempt on. -/
def devSecondTry : Device := fun h => if h.length ≤ 5 then ">" else "196>"

/-- Claim C2 is false of the code: on a device whose readback fails once and
then succeeds, the claimed 10-attempt behaviour returns success, but
`change_pam_function` returns permanent failure, having sent exactly one
FUNCTION readback and no SAVE kick. -/
theorem change_pam_function_verification_counterexample :
    (change_pam_function devSecondTry initPam 196).1 = false ∧
    (change_pam_function devSecondTry initPam 196).2.sent =
      ["FUNCTION 196", "IA 0", "IB 0", "SAVE", "FUNCTION"] ∧
    (change_pam_function_spec devSecondTry initPam 196).1 = true := by
  decide

/-- Amended claim C2: after writing FUNCTION, zeroing both setpoints and
issuing SAVE (with a 3 s settle wait), `change_pam_function` clears the input
buffer and reads FUNCTION back exactly once, returning success iff the parsed
number equals `new_mode`; there is no retry loop and no SAVE kick — the
appended trace contains exactly one `FUNCTION` readback and one `SAVE`. -/
theorem change_pam_function_single_readback (dev : Device) (ps : PamState) (n : Int)
    (h : n = 195 ∨ n = 196) :
    (change_pam_function dev ps n).1 =
      decide (extract_number (dev (ps.sent ++ cpfTrace n)) = some ((n : Int) : Rat)) ∧
    (List.drop ps.sent.length (change_pam_function dev ps n).2.sent).count "FUNCTION" = 1 ∧
    (List.drop ps.sent.length (change_pam_function dev ps n).2.sent).count "SAVE" = 1 := by
  have hrun := change_pam_function_run dev ps n h
  refine ⟨by rw [hrun], ?_, ?_⟩ <;>
    rw [hrun] <;> rcases h with h | h <;> subst h <;>
      simp only [List.drop_left] <;> decide

theorem change_pam_function_single_readback_witness :
    (change_pam_function (fun _ => "196>") initPam 196).1 =
      decide (extract_number ((fun (_ : List String) => "196>")
        (initPam.sent ++ cpfTrace 196)) = some ((196 : Int) : Rat)) ∧
    (List.drop initPam.sent.length
      (change_pam_function (fun _ => "196>") initPam 196).2.sent).count "FUNCTION" = 1 ∧
    (List.drop initPam.sent.length
      (change_pam_function (fun _ => "196>") initPam 196).2.sent).count "SAVE" = 1 :=
  change_pam_function_single_readback (fun _ => "196>") initPam 196 (Or.inr rfl)

/-! ### set_current_value (pam.py lines 370-446) -/

/-- Tail of `set_current_value` after the channel-specific write: `SAVE`, the
3 s settle wait (not modelled), then the `self._verify_writes` attribute
access. On a fresh instance the attribute does not exist, so the access
raises `AttributeError`, the blanket `except Exception` catches it and the
method returns `False` (modelled by the `none` case). When the attribute is
`False` verification is skipped; when `True` the mode-specific readback
(`verify_func`, here its command line `verifyCmd`) is compared with `value`,
`None` or a mismatch giving `False`. -/
def scv_tail (dev : Device) (ps : PamState) (value : Int) (verifyCmd : String) :
    Bool × PamState :=
  let ps1 := save_pam_settings dev ps
  match ps1.verifyWrites with
  | none => (false, ps1)
  | some false => (true, ps1)
  | some true =>
    let r := cmd dev ps1 verifyCmd
    (decide (extract_number r.1 = some ((value : Int) : Rat)), r.2)

/-- pam.py `set_current_value(value, channel, mode)`: validate the range
before any hardware access; mode "195" auto-corrects the channel to A; mode
"196" rejects channels outside {A, B}; then write the mode/channel-specific
current command, `SAVE`, and optionally verify (see `scv_tail`). For a mode
string that is neither "195" nor "196" no write branch runs, so the local
`success` is unbound and `if not success` raises `UnboundLocalError`, caught
by the blanket `except` → `False` with nothing written. -/
def set_current_value (dev : Device) (ps : PamState) (value : Int)
    (channel : String) (mode : String) : Bool × PamState :=
  if ¬(500 ≤ value ∧ value ≤ 2600) then (false, ps)
  else
    let ch0 := pyUpper channel
    let ch := if mode = "195" ∧ ch0 ≠ "A" then "A" else ch0
    if mode = "196" ∧ ch ≠ "A" ∧ ch ≠ "B" then (false, ps)
    else if mode = "195" then
      scv_tail dev (write_current dev ps value) value "CURRENT"
    else if mode = "196" then
      if ch = "A" then scv_tail dev (write_current_a dev ps value) value "CURRENT:A"
      else scv_tail dev (write_current_b dev ps value) value "CURRENT:B"
    else (false, ps)

/-! ### Claim C3: set_current_value on a fresh controller -/

/-- Device answering every `CURRENT` readback with 1000. -/
def devCurrent1000 : Device := fun h =>
  match h.getLast? with
  | some "CURRENT" => "1000>"
  | _ => ">"

/-- Claim C3 is right and the code is wrong: on a freshly constructed
controller (where `_verify_writes` was never assigned, although the
`verify_writes` property defaults to enabled), `set_current_value(1000, 'A',
"195")` returns `False` even though the post-SAVE readback equals 1000 — the
bare `self._verify_writes` access raises `AttributeError` and the blanket
`except` turns it into failure. With the attribute actually set to the
property's default `True`, the very same call succeeds. -/
theorem set_current_value_fresh_controller_bug :
    (set_current_value devCurrent1000 initPam 1000 "A" "195").1 = false ∧
    (get_current_status devCurrent1000
        (set_current_value devCurrent1000 initPam 1000 "A" "195").2).1 =
      some ((1000 : Int) : Rat) ∧
    (set_current_value devCurrent1000 { initPam with verifyWrites := some true }
        1000 "A" "195").1 = true := by
  decide

/-! ### Claim C4: validation happens before any hardware access -/

/-- Out-of-range current values and invalid FUNCTION modes are rejected with
nothing written to the serial transport: `set_current_value` checks
`500 ≤ value ≤ 2600` before `reset_input_buffer`/any write, and
`change_pam_function` checks `new_mode ∈ {195, 196}` first. -/
theorem validation_before_hardware (dev : Device) (ps : PamState) (v : Int)
    (channel mode : String) (n : Int)
    (hv : v < 500 ∨ 2600 < v) (hn : n ≠ 195 ∧ n ≠ 196) :
    (set_current_value dev ps v channel mode).1 = false ∧
    (set_current_value dev ps v channel mode).2.sent = ps.sent ∧
    (change_pam_function dev ps n).1 = false ∧
    (change_pam_function dev ps n).2.sent = ps.sent := by
  have hv' : ¬(500 ≤ v ∧ v ≤ 2600) := by omega
  constructor
  · simp [set_current_value, hv']
  constructor
  · simp [set_current_value, hv']
  constructor
  · simp [change_pam_function, hn]
  · simp [change_pam_function, hn]

theorem validation_before_hardware_witness :
    (set_current_value (fun _ => ">") initPam 5000 "A" "195").1 = false ∧
    (set_current_value (fun _ => ">") initPam 5000 "A" "195").2.sent = initPam.sent ∧
    (change_pam_function (fun _ => ">") initPam 197).1 = false ∧
    (change_pam_function (fun _ => ">") initPam 197).2.sent = initPam.sent :=
  validation_before_hardware (fun _ => ">") initPam 5000 "A" "195" 197
    (Or.inr (by decide)) (by decide)

/-! ### change_pam_ain_mode (pam.py lines 341-368) -/

/-- pam.py `change_pam_ain_mode(unit, channel)`: reject units outside
{V, C}; flush, write the AIN command, `SAVE`, wait 3 s (not modelled), flush,
read back once and compare. -/
def change_pam_ain_mode (dev : Device) (ps : PamState) (unit channel : String) :
    Bool × PamState :=
  if unit ≠ "V" ∧ unit ≠ "C" then (false, ps)
  else
    let ps1 := write_ain_mode dev ps unit channel
    let ps2 := save_pam_settings dev ps1
    let r := read_ain_mode dev ps2 channel
    (decide (r.1 = some unit), r.2)

/-! ### Shared machine state, field-level view (state.py) -/

/-- The fields of state.py's `MachineState._data` dictionary that the command
handlers read or write, as a record (the value `None` is `none`). -/
structure MState where
  inTransition : Bool
  func : Option Int
  modeA : Option String
  modeB : Option String
  mode : Option String
  currentStatus : Option Int
  currentA : Option Int
  currentB : Option Int
  deriving DecidableEq, Repr

/-- state.py `MachineState.__init__`: `IN_TRANSITION` starts `False`, every
data field starts `None`. -/
def initMState : MState :=
  { inTransition := false, func := none, modeA := none, modeB := none,
    mode := none, currentStatus := none, currentA := none, currentB := none }

/-! ### Command processor handlers (ble/command_processor.py) -/

/-- command_processor.py `CommandResult`: success flag, message, optional
data. The `data` payload (used only by GetStatus) is modelled as a heap
address of the returned snapshot dictionary. -/
structure CommandResult where
  success : Bool
  message : String
  data : Option Nat := none
  deriving DecidableEq, Repr

/-- Python `str(mode)` for the raw `mode` parameter (an int or `None`). -/
def pyStr : Option Int → String
  | none => "None"
  | some n => toString n

/-- command_processor.py `_handle_change_mode`: validate the mode, set the
transition flag, run `change_pam_function`; on success with a 195 to 196
transition also sync both AIN channels to channel A's old unit and publish
MODE_A/MODE_B, else publish only FUNC; clear the transition flag on success,
on failure, and in the `except` handler (exceptions cannot arise in this pure
model; the `except` path also clears the flag). -/
def handle_change_mode (dev : Device) (ms : MState) (ps : PamState)
    (modeP : Option Int) : CommandResult × MState × PamState :=
  match modeP with
  | none => ({ success := false, message := "Invalid mode: None" }, ms, ps)
  | some new_mode =>
    if new_mode ≠ 195 ∧ new_mode ≠ 196 then
      ({ success := false, message := "Invalid mode: " ++ toString new_mode }, ms, ps)
    else
      let old_mode := ms.func
      let ms1 : MState := { ms with inTransition := true }
      let r := change_pam_function dev ps new_mode
      if r.1 then
        if new_mode = 196 ∧ old_mode = some 195 then
          let rA := read_ain_mode dev r.2 "A"
          let current_mode := rA.1.getD "V"
          let psA := write_ain_mode dev rA.2 current_mode "A"
          let psB := write_ain_mode dev psA current_mode "B"
          let psS := save_pam_settings dev psB
          let rA2 := read_ain_mode dev psS "A"
          let rB2 := read_ain_mode dev rA2.2 "B"
          let ms2 : MState :=
            { ms1 with func := some new_mode, modeA := rA2.1, modeB := rB2.1 }
          let ms3 : MState := { ms2 with inTransition := false }
          ({ success := true, message := "Mode changed to " ++ toString new_mode },
           ms3, rB2.2)
        else
          let ms2 : MState := { ms1 with func := some new_mode }
          let ms3 : MState := { ms2 with inTransition := false }
          ({ success := true, message := "Mode changed to " ++ toString new_mode },
           ms3, r.2)
      else
        ({ success := false, message := "Mode change failed" },
         { ms1 with inTransition := false }, r.2)

/-- command_processor.py `_handle_set_ain_mode`: validate the unit; in FUNC
196 set both channels (success only if both verify), in any other FUNC set
the requested channel and publish MODE; the transition flag is cleared on
every path that set it (including the `except` handler). -/
def handle_set_ain_mode (dev : Device) (ms : MState) (ps : PamState)
    (unitP : Option String) (channel : String) : CommandResult × MState × PamState :=
  match unitP with
  | none => ({ success := false, message := "Invalid unit: None" }, ms, ps)
  | some unit =>
    if unit ≠ "V" ∧ unit ≠ "C" then
      ({ success := false, message := "Invalid unit: " ++ unit }, ms, ps)
    else
      if ms.func = some 196 then
        let ms1 : MState := { ms with inTransition := true }
        let rA := change_pam_ain_mode dev ps unit "A"
        let rB := change_pam_ain_mode dev rA.2 unit "B"
        if rA.1 && rB.1 then
          ({ success := true, message := "Both channels set to " ++ unit },
           { ms1 with modeA := some unit, modeB := some unit, inTransition := false },
           rB.2)
        else
          ({ success := false, message := "Failed to set both channels" },
           { ms1 with inTransition := false }, rB.2)
      else
        let ms1 : MState := { ms with inTransition := true }
        let r := change_pam_ain_mode dev ps unit channel
        if r.1 then
          ({ success := true, message := "AIN" ++ channel ++ " set to " ++ unit },
           { ms1 with mode := some unit, inTransition := false }, r.2)
        else
          ({ success := false, message := "AIN mode change failed" },
           { ms1 with inTransition := false }, r.2)

/-- command_processor.py `_handle_set_current`: reject non-int values
(`valueP = none`) and out-of-range values before touching the flag or
hardware; then set the transition flag, call `set_current_value` (mode 195
targets channel A, anything else goes through `str(mode)` to the
channel-specific path), publish the per-mode current field on success, and
clear the transition flag on every path that set it. -/
def handle_set_current (dev : Device) (ms : MState) (ps : PamState)
    (valueP : Option Int) (channel : String) (modeP : Option Int) :
    CommandResult × MState × PamState :=
  match valueP with
  | none => ({ success := false, message := "Invalid value type" }, ms, ps)
  | some value =>
    if ¬(500 ≤ value ∧ value ≤ 2600) then
      ({ success := false,
         message := "Value " ++ toString value ++ " out of range (500-2600)" },
       ms, ps)
    else
      let ms1 : MState := { ms with inTransition := true }
      if modeP = some 195 then
        let r := set_current_value dev ps value "A" "195"
        let ms2 := if r.1 then { ms1 with currentStatus := some value } else ms1
        let ms3 : MState := { ms2 with inTransition := false }
        if r.1 then
          ({ success := true,
             message := "Current " ++ channel ++ "=" ++ toString value ++ "mA" },
           ms3, r.2)
        else
          ({ success := false, message := "Failed to set current" }, ms3, r.2)
      else
        let r := set_current_value dev ps value channel (pyStr modeP)
        let ms2 := if r.1 then
            (if channel = "A" then { ms1 with currentA := some value }
             else { ms1 with currentB := some value })
          else ms1
        let ms3 : MState := { ms2 with inTransition := false }
        if r.1 then
          ({ success := true,
             message := "Current " ++ channel ++ "=" ++ toString value ++ "mA" },
           ms3, r.2)
        else
          ({ success := false, message := "Failed to set current" }, ms3, r.2)

theorem handle_change_mode_clears (dev : Device) (ms : MState) (ps : PamState)
    (modeP : Option Int) (h : ms.inTransition = false) :
    (handle_change_mode dev ms ps modeP).2.1.inTransition = false := by
  cases modeP <;> simp only [handle_change_mode] <;> (repeat' split) <;> simp_all

theorem handle_set_ain_mode_clears (dev : Device) (ms : MState) (ps : PamState)
    (unitP : Option String) (channel : String) (h : ms.inTransition = false) :
    (handle_set_ain_mode dev ms ps unitP channel).2.1.inTransition = false := by
  cases unitP <;> simp only [handle_set_ain_mode] <;> (repeat' split) <;> simp_all

theorem handle_set_current_clears (dev : Device) (ms : MState) (ps : PamState)
    (valueP : Option Int) (channel : String) (modeP : Option Int)
    (h : ms.inTransition = false) :
    (handle_set_current dev ms ps valueP channel modeP).2.1.inTransition = false := by
  cases valueP <;> simp only [handle_set_current] <;> (repeat' split) <;> simp_all

/-! ### Claim C5: every transition-setting handler clears IN_TRANSITION -/

/-- Each of the three transition-setting handlers leaves `IN_TRANSITION`
false whenever it was false on entry (the only reachable entry state, since
these handlers — run one at a time by the single worker — are the flag's only
writers and each clears it before returning): every path that sets the flag
clears it on exit, whether the operation succeeds, fails, or dies in the
`except` handler, and the early validation exits never touch it. -/
theorem handlers_clear_transition (dev : Device) (ms : MState) (ps : PamState)
    (modeP valueP modeP2 : Option Int) (unitP : Option String) (ch1 ch2 : String)
    (h : ms.inTransition = false) :
    (handle_change_mode dev ms ps modeP).2.1.inTransition = false ∧
    (handle_set_ain_mode dev ms ps unitP ch1).2.1.inTransition = false ∧
    (handle_set_current dev ms ps valueP ch2 modeP2).2.1.inTransition = false :=
  ⟨handle_change_mode_clears dev ms ps modeP h,
   handle_set_ain_mode_clears dev ms ps unitP ch1 h,
   handle_set_current_clears dev ms ps valueP ch2 modeP2 h⟩

theorem handlers_clear_transition_witness :
    (handle_change_mode (fun _ => "196>") initMState initPam (some 196)).2.1.inTransition = false ∧
    (handle_set_ain_mode (fun _ => "196>") initMState initPam (some "V") "A").2.1.inTransition = false ∧
    (handle_set_current (fun _ => "196>") initMState initPam (some 1000) "A" (some 195)).2.1.inTransition = false :=
  handlers_clear_transition (fun _ => "196>") initMState initPam
    (some 196) (some 1000) (some 195) (some "V") "A" "A" rfl

/-! ### Command objects and submit (ble/command_processor.py) -/

/-- command_processor.py `CommandType` enum. -/
inductive CommandType where
  | change_mode
  | set_ain_mode
  | set_current
  | get_status
  | save_settings
  deriving DecidableEq, Repr

/-- command_processor.py `Command` dataclass. `params` is an uninspected
dictionary (`submit` never reads it); `response_queue` is the optional
private one-shot channel, modelled by an identifying tag. -/
structure Command where
  type : CommandType
  params : List (String × String)
  response_queue : Option Nat
  timestamp : Rat
  deriving DecidableEq, Repr

/-- The module-level environment of command_processor.py: `import_time` is
the single value `time.time()` produced when the module is imported and the
`Command` class body (including the dataclass field default
`timestamp: float = time.time()`) is evaluated — once per process. -/
structure CommandProcessorModule where
  import_time : Rat
  deriving DecidableEq, Repr

/-- Constructing `Command(cmd_type, params, response_queue)` with no explicit
timestamp at wall-clock time `_creation_time`: the dataclass default supplies
the class-definition-time value, not the construction-time clock. -/
def makeCommand (m : CommandProcessorModule) (_creation_time : Rat)
    (ty : CommandType) (params : List (String × String))
    (response_queue : Option Nat) : Command :=
  { type := ty, params := params, response_queue := response_queue,
    timestamp := m.import_time }

/-- command_processor.py `submit(cmd_type, params, wait_for_response)` against
a queue of maximum size 50. `q` is the current queue content; `now` the
caller's clock; `delivered` is `some result` when the worker puts `result` on
the private response queue within the 5 s wait, `none` when nothing arrives
in time. The `put` uses `block=False`, so a full queue raises `queue.Full`
at once (turned into the queue-full result), never blocking the producer; a
timed-out wait (`queue.Empty`) returns `"Command timeout"` without removing
the already-enqueued command. -/
def submit (m : CommandProcessorModule) (q : List Command) (cmd_type : CommandType)
    (params : List (String × String)) (wait_for_response : Bool) (now : Rat)
    (delivered : Option CommandResult) : CommandResult × List Command :=
  let response_queue : Option Nat := if wait_for_response then some 0 else none
  let c := makeCommand m now cmd_type params response_queue
  if 50 ≤ q.length then
    ({ success := false, message := "Command queue full" }, q)
  else
    let q' := q ++ [c]
    if wait_for_response then
      match delivered with
      | some result => (result, q')
      | none => ({ success := false, message := "Command timeout" }, q')
    else
      ({ success := true, message := "Command queued" }, q')

/-! ### Claim C6: submit never blocks the producer -/

/-- With the 50-capacity queue full, `submit` fails at once with the
queue-full result and leaves the queue unchanged; below capacity, a waiting
caller whose result does not arrive in 5 s gets the timeout result while the
command stays queued (not cancelled — a delivered result `r` would have been
returned, and on timeout the command remains in the queue to execute with its
result discarded); a non-waiting caller gets the immediate queued
acknowledgement. -/
theorem submit_nonblocking (m : CommandProcessorModule) (ty : CommandType)
    (params : List (String × String)) (now : Rat) (d : Option CommandResult)
    (r : CommandResult) (w : Bool) (qf qs : List Command)
    (hf : 50 ≤ qf.length) (hs : qs.length < 50) :
    submit m qf ty params w now d =
      ({ success := false, message := "Command queue full" }, qf) ∧
    submit m qs ty params true now none =
      ({ success := false, message := "Command timeout" },
       qs ++ [makeCommand m now ty params (some 0)]) ∧
    submit m qs ty params true now (some r) =
      (r, qs ++ [makeCommand m now ty params (some 0)]) ∧
    submit m qs ty params false now d =
      ({ success := true, message := "Command queued" },
       qs ++ [makeCommand m now ty params none]) := by
  have hs' : ¬ 50 ≤ qs.length := by omega
  refine ⟨?_, ?_, ?_, ?_⟩ <;> simp [submit, hf, hs']

/-- A queue of 50 placeholder commands for the witness. -/
def fullQueue : List Command :=
  List.replicate 50 (makeCommand ⟨0⟩ 0 CommandType.get_status [] none)

theorem submit_nonblocking_witness :
    submit ⟨0⟩ fullQueue CommandType.get_status [] true 7 none =
      ({ success := false, message := "Command queue full" }, fullQueue) ∧
    submit ⟨0⟩ [] CommandType.get_status [] true 7 none =
      ({ success := false, message := "Command timeout" },
       [] ++ [makeCommand ⟨0⟩ 7 CommandType.get_status [] (some 0)]) ∧
    submit ⟨0⟩ [] CommandType.get_status [] true 7
        (some { success := true, message := "ok" }) =
      ({ success := true, message := "ok" },
       [] ++ [makeCommand ⟨0⟩ 7 CommandType.get_status [] (some 0)]) ∧
    submit ⟨0⟩ [] CommandType.get_status [] false 7 none =
      ({ success := true, message := "Command queued" },
       [] ++ [makeCommand ⟨0⟩ 7 CommandType.get_status [] none]) :=
  submit_nonblocking ⟨0⟩ CommandType.get_status [] 7 none
    { success := true, message := "ok" } true fullQueue []
    (by simp [fullQueue]) (by simp)

/-! ### Claim C10: the Command timestamp default -/

/-- Python evaluates a dataclass field default once, when the class body runs
at module import: every `Command` built without an explicit timestamp carries
the module's single import-time value, so two commands created at any two
(in particular different) times have equal timestamps, and neither equals its
own creation time unless by coincidence. -/
theorem command_timestamp_fixed_at_import (m : CommandProcessorModule)
    (t1 t2 : Rat) (ty1 ty2 : CommandType) (p1 p2 : List (String × String))
    (rq1 rq2 : Option Nat) :
    (makeCommand m t1 ty1 p1 rq1).timestamp = m.import_time ∧
    (makeCommand m t2 ty2 p2 rq2).timestamp = m.import_time ∧
    (makeCommand m t1 ty1 p1 rq1).timestamp = (makeCommand m t2 ty2 p2 rq2).timestamp :=
  ⟨rfl, rfl, rfl⟩

/-! ### get_ready_status (pam.py lines 147-193) -/

/-- pam.py `get_ready_status`: read the raw status word (`RX1:READYA`),
return "No Data" when the read parses to nothing; otherwise truncate to int,
read the current FUNCTION and decode. `val & 0xFFFF` (Python bitwise and of a
possibly negative int with the low-16 mask) is the value's low 16 bits,
`(Int.emod val 65536).toNat`. In mode 196 bits 14/15 are the channel A/B
active flags; in mode 195 the early `status == 65532` return forces "ALL
OFF", else bit 8 is channel-A-ok and bit 7 channel-B-ok. Any other FUNCTION
value falls off the if/elif chain and returns `None`. -/
def get_ready_status (dev : Device) (ps : PamState) : Option String × PamState :=
  let r := read_status_value dev ps
  match r.1 with
  | none => (some "No Data", r.2)
  | some q =>
    let val : Int := pyInt q
    let rm := read_function dev r.2
    if rm.1 = some (196 : Rat) then
      let status : Nat := (Int.emod val 65536).toNat
      let s := if (0 < status &&& 16384) ∧ (0 < status &&& 32768) then "A + B ACTIVE"
               else if 0 < status &&& 16384 then "A ACTIVE"
               else if 0 < status &&& 32768 then "B ACTIVE"
               else "ALL OFF"
      (some s, rm.2)
    else if rm.1 = some (195 : Rat) then
      let status : Nat := (Int.emod val 65536).toNat
      let s := if status = 65532 then "ALL OFF"
               else if (0 < status &&& 256) ∧ (0 < status &&& 128) then "A + B ACTIVE"
               else if 0 < status &&& 128 then "B ACTIVE"
               else if 0 < status &&& 256 then "A ACTIVE"
               else "ALL OFF"
      (some s, rm.2)
    else (none, rm.2)

/-- Decoding table claim C7 states for FUNC 196: bit 14 = channel A active,
bit 15 = channel B active. -/
def ready_decode_196_claim (m : Nat) : String :=
  if m.testBit 14 then (if m.testBit 15 then "A + B ACTIVE" else "A ACTIVE")
  else if m.testBit 15 then "B ACTIVE"
  else "ALL OFF"

/-- Decoding table claim C7 states for FUNC 195: the masked value 65532 is
"ALL OFF" regardless of the bits, otherwise bit 8 = channel A ok and bit 7 =
channel B ok. -/
def ready_decode_195_claim (m : Nat) : String :=
  if m = 65532 then "ALL OFF"
  else if m.testBit 8 then (if m.testBit 7 then "A + B ACTIVE" else "A ACTIVE")
  else if m.testBit 7 then "B ACTIVE"
  else "ALL OFF"

theorem and_two_pow_pos (n i : Nat) : 0 < n &&& 2 ^ i ↔ n.testBit i = true := by
  rw [Nat.and_two_pow]
  cases h : n.testBit i
  · simp
  · simp [Nat.pos_pow_of_pos]

theorem pyInt_intCast (n : Int) : pyInt ((n : Int) : Rat) = n := by
  simp [pyInt, Rat.num_intCast, Rat.den_intCast]

theorem code_decode_196 (m : Nat) :
    (if (0 < m &&& 16384) ∧ (0 < m &&& 32768) then "A + B ACTIVE"
     else if 0 < m &&& 16384 then "A ACTIVE"
     else if 0 < m &&& 32768 then "B ACTIVE"
     else "ALL OFF") = ready_decode_196_claim m := by
  have e14 := and_two_pow_pos m 14
  have e15 := and_two_pow_pos m 15
  norm_num at e14 e15
  by_cases hA : m.testBit 14 = true <;> by_cases hB : m.testBit 15 = true <;>
    simp [ready_decode_196_claim, hA, hB, e14, e15]

theorem code_decode_195 (m : Nat) :
    (if m = 65532 then "ALL OFF"
     else if (0 < m &&& 256) ∧ (0 < m &&& 128) then "A + B ACTIVE"
     else if 0 < m &&& 128 then "B ACTIVE"
     else if 0 < m &&& 256 then "A ACTIVE"
     else "ALL OFF") = ready_decode_195_claim m := by
  have e8 := and_two_pow_pos m 8
  have e7 := and_two_pow_pos m 7
  norm_num at e8 e7
  by_cases h65 : m = 65532
  · simp [ready_decode_195_claim, h65]
  · by_cases hA : m.testBit 8 = true <;> by_cases hB : m.testBit 7 = true <;>
      simp [ready_decode_195_claim, h65, hA, hB, e8, e7]

/-! ### Claim C7: status word decoding -/

/-- Whenever the raw status word parses to an integer `val` and the FUNCTION
readback parses to 196 or 195, `get_ready_status` masks `val` to its unsigned
low 16 bits and decodes exactly the table of claim C7: in mode 196 bits 14
and 15 (channel A / channel B active) select among the four strings; in mode
195 the masked value 65532 means "ALL OFF" regardless of bits 7 and 8,
otherwise bit 8 means channel A ok and bit 7 channel B ok. -/
theorem get_ready_status_decode (dev : Device) (ps : PamState) (val fm : Int)
    (h1 : extract_number (dev (ps.sent ++ ["RX1:READYA"])) = some ((val : Int) : Rat))
    (h2 : extract_number (dev (ps.sent ++ ["RX1:READYA", "FUNCTION"])) = some ((fm : Int) : Rat))
    (hfm : fm = 196 ∨ fm = 195) :
    (Int.emod val 65536).toNat < 65536 ∧
    (get_ready_status dev ps).1 =
      some (if fm = 196 then ready_decode_196_claim ((Int.emod val 65536).toNat)
            else ready_decode_195_claim ((Int.emod val 65536).toNat)) := by
  have hb0 : 0 ≤ Int.emod val 65536 := Int.emod_nonneg val (by norm_num)
  have hb1 : Int.emod val 65536 < 65536 := Int.emod_lt_of_pos val (by norm_num)
  refine ⟨by omega, ?_⟩
  rcases hfm with hfm | hfm <;> subst hfm
  · have hc : ((196 : Int) : Rat) = (196 : Rat) := by norm_num
    simp only [get_ready_status, read_status_value, read_function, cmd,
      List.append_assoc, List.singleton_append, h1, h2, hc, pyInt_intCast]
    exact congrArg some (code_decode_196 _)
  · have hc : ((195 : Int) : Rat) = (195 : Rat) := by norm_num
    simp only [get_ready_status, read_status_value, read_function, cmd,
      List.append_assoc, List.singleton_append, h1, h2, hc, pyInt_intCast,
      Option.some.injEq]
    exact congrArg some (code_decode_195 _)

/-- Device whose status word is 49152 (bits 14 and 15 set) in FUNCTION 196. -/
def devReady : Device := fun h =>
  match h.getLast? with
  | some "RX1:READYA" => "49152>"
  | some "FUNCTION" => "196>"
  | _ => ">"

theorem get_ready_status_decode_witness :
    (Int.emod (49152 : Int) 65536).toNat < 65536 ∧
    (get_ready_status devReady initPam).1 =
      some (if (196 : Int) = 196 then
              ready_decode_196_claim ((Int.emod (49152 : Int) 65536).toNat)
            else
              ready_decode_195_claim ((Int.emod (49152 : Int) 65536).toNat)) :=
  get_ready_status_decode devReady initPam 49152 196 (by decide) (by decide)
    (Or.inl rfl)

/-! ### state.py module environment and wait_for_transition (claim C8) -/

/-- The module-level imports of state.py: the file's only import statement is
`import threading`. In particular the name `time` is never bound in the
module's namespace, although `wait_for_transition` uses `time.time()` and
`time.sleep(0.05)`. -/
def state_py_imports : List String := ["threading"]

/-- Outcome of calling a Python function: a normal return value or an
uncaught exception. -/
inductive PyResult (α : Type) where
  | ok (value : α)
  | exn (message : String)
  deriving DecidableEq, Repr

/-- The polling loop of `wait_for_transition` as written in the source: while
less than `timeout` seconds have elapsed, read the transition flag, return
`True` the moment it is false, else `time.sleep(0.05)` — a 50 ms poll
interval — and retry; once the timeout elapses return `False`. `flag k` is
the flag value observed at the k-th poll (at elapsed time k * 0.05 s); `fuel`
bounds the recursion and is supplied large enough that the elapsed-time test
is what stops the loop. -/
def wait_for_transition_loop (flag : Nat → Bool) (timeout : Rat) :
    Nat → Nat → Bool
  | 0, _ => false
  | fuel + 1, k =>
    if (k : Rat) * (1 / 20) < timeout then
      if flag k = false then true
      else wait_for_transition_loop flag timeout fuel (k + 1)
    else false

/-- state.py `wait_for_transition(timeout)`: the body's first expression is
`start_time = time.time()`, but state.py never imports `time`, so name
resolution fails and every call raises `NameError` before the first poll;
the polling loop is dead code. -/
def wait_for_transition (flag : Nat → Bool) (timeout : Rat) : PyResult Bool :=
  if "time" ∈ state_py_imports then
    PyResult.ok (wait_for_transition_loop flag timeout
      ((timeout * 20).ceil.toNat + 1) 0)
  else
    PyResult.exn "NameError: name 'time' is not defined"

/-- Claim C8 is false of the code: with the transition flag false throughout
and a 2 s timeout, `wait_for_transition` does not return `True` — it raises
`NameError`, because state.py imports only `threading` and not `time`. -/
theorem wait_for_transition_counterexample :
    wait_for_transition (fun _ => false) 2 ≠ PyResult.ok true ∧
    wait_for_transition (fun _ => false) 2 =
      PyResult.exn "NameError: name 'time' is not defined" := by
  constructor
  · decide
  · decide

/-- Amended claim C8: as written, every call of `wait_for_transition` raises
`NameError` (`time` is not defined — state.py imports only `threading`)
before the first poll, so it never returns `True` or `False`; and the poll
interval the dead loop would use is `time.sleep(0.05)` — 50 ms, not ~5 ms. -/
theorem wait_for_transition_raises (flag : Nat → Bool) (timeout : Rat) :
    wait_for_transition flag timeout =
      PyResult.exn "NameError: name 'time' is not defined" := by
  have h : "time" ∉ state_py_imports := by decide
  simp [wait_for_transition, h]

/-! ### state.py get_all: snapshot copy semantics (claim C9) -/

/-- Python values stored in the machine-state dictionary. -/
inductive PyVal where
  | pynone
  | pybool (b : Bool)
  | pyint (n : Int)
  | pystr (s : String)
  deriving DecidableEq, Repr

/-- A Python dict as an association list (insertion order kept). -/
abbrev PyDict := List (String × PyVal)

/-- Dict assignment `d[k] = v`: replace the value under an existing key, else
append the new pair. -/
def dictAssign (d : PyDict) (k : String) (v : PyVal) : PyDict :=
  if (d.map Prod.fst).contains k then
    d.map (fun p => if p.1 = k then (p.1, v) else p)
  else d ++ [(k, v)]

/-- A heap of dict objects; a dict reference is an index into `cells`. Claim
C9 is about aliasing, so dict identity must be modelled, not just contents:
`self._data` is the dict object at address `self_data`. -/
structure DictHeap where
  cells : List PyDict
  deriving DecidableEq, Repr

/-- state.py `MachineState.get_all`: `return self._data.copy()` under the
lock — allocate a new dict object with the same contents and return a
reference to it, never the live `self._data` reference. (The stored values
are scalars — floats, bools, strings, `None` — so the shallow `dict.copy()`
is a full snapshot.) -/
def get_all (h : DictHeap) (self_data : Nat) : Nat × DictHeap :=
  (h.cells.length, ⟨h.cells ++ [h.cells.getD self_data []]⟩)

/-- Mutation `d[k] = v` of the dict object at address `a` in the heap. -/
def heapAssign (h : DictHeap) (a : Nat) (k : String) (v : PyVal) : DictHeap :=
  ⟨h.cells.set a (dictAssign (h.cells.getD a []) k v)⟩

/-- command_processor.py `_handle_get_status`: `data = self.state.get_all()`
and a successful result carrying that snapshot. The handler body contains no
`self.pam` call; the final component is the complete list of serial command
lines the handler writes — empty. -/
def handle_get_status (h : DictHeap) (self_data : Nat) :
    CommandResult × DictHeap × List String :=
  let r := get_all h self_data
  ({ success := true, message := "Status retrieved", data := some r.1 },
   r.2, [])

/-- The GetStatus handler writes nothing to the serial link and returns a
snapshot at a fresh address distinct from `self._data`: the stored state cell
is unchanged by the call, the snapshot's contents equal the stored contents,
and mutating the returned dict afterwards leaves the stored state cell
exactly as it was — later reads still see the original. -/
theorem get_status_snapshot_independent (h : DictHeap) (self_data : Nat)
    (k : String) (v : PyVal) (hv : self_data < h.cells.length) :
    (handle_get_status h self_data).2.2 = [] ∧
    (handle_get_status h self_data).1.success = true ∧
    (handle_get_status h self_data).1.data = some h.cells.length ∧
    h.cells.length ≠ self_data ∧
    (handle_get_status h self_data).2.1.cells[self_data]? = h.cells[self_data]? ∧
    (handle_get_status h self_data).2.1.cells.getD h.cells.length [] =
      h.cells.getD self_data [] ∧
    (heapAssign (handle_get_status h self_data).2.1 h.cells.length k v).cells[self_data]? =
      h.cells[self_data]? := by
  refine ⟨rfl, rfl, rfl, Nat.ne_of_gt hv, ?_, ?_, ?_⟩
  · show (h.cells ++ [h.cells.getD self_data []])[self_data]? = h.cells[self_data]?
    rw [List.getElem?_append]
    exact if_pos hv
  · show (h.cells ++ [h.cells.getD self_data []]).getD h.cells.length [] =
      h.cells.getD self_data []
    simp [List.getD, List.getElem?_concat_length]
  · show ((h.cells ++ [h.cells.getD self_data []]).set h.cells.length _)[self_data]? =
      h.cells[self_data]?
    rw [List.getElem?_set_ne (Nat.ne_of_gt hv)]
    rw [List.getElem?_append]
    exact if_pos hv

theorem get_status_snapshot_independent_witness :
    (handle_get_status ⟨[[("FUNC", PyVal.pyint 196)]]⟩ 0).2.2 = [] ∧
    (handle_get_status ⟨[[("FUNC", PyVal.pyint 196)]]⟩ 0).1.success = true ∧
    (handle_get_status ⟨[[("FUNC", PyVal.pyint 196)]]⟩ 0).1.data =
      some (DictHeap.cells ⟨[[("FUNC", PyVal.pyint 196)]]⟩).length ∧
    (DictHeap.cells ⟨[[("FUNC", PyVal.pyint 196)]]⟩).length ≠ 0 ∧
    (handle_get_status ⟨[[("FUNC", PyVal.pyint 196)]]⟩ 0).2.1.cells[0]? =
      (DictHeap.cells ⟨[[("FUNC", PyVal.pyint 196)]]⟩)[0]? ∧
    (handle_get_status ⟨[[("FUNC", PyVal.pyint 196)]]⟩ 0).2.1.cells.getD
        (DictHeap.cells ⟨[[("FUNC", PyVal.pyint 196)]]⟩).length [] =
      (DictHeap.cells ⟨[[("FUNC", PyVal.pyint 196)]]⟩).getD 0 [] ∧
    (heapAssign (handle_get_status ⟨[[("FUNC", PyVal.pyint 196)]]⟩ 0).2.1
        (DictHeap.cells ⟨[[("FUNC", PyVal.pyint 196)]]⟩).length
        "FUNC" (PyVal.pyint 195)).cells[0]? =
      (DictHeap.cells ⟨[[("FUNC", PyVal.pyint 196)]]⟩)[0]? :=
  get_status_snapshot_independent ⟨[[("FUNC", PyVal.pyint 196)]]⟩ 0
    "FUNC" (PyVal.pyint 195) (by decide)
